import Mathlib

/-!
Verification development for the curling match server (RestAPI-Server).

This file contains a shallow embedding, in Lean 4, of the parts of the
server that the specification talks about:

* `src/score_utils.py`      — end scoring from stone distances;
* `src/domain/match_rules.py` — mode-dependent rule parameters and stone
  layout generation;
* `src/routers/match.py`    — the shot-resolution handler
  (`receive_shot_info`), the end-transition helper
  (`state_end_number_update`) and the initial state built by `start_match`;
* `src/services/match_db.py` — the mixed-doubles end-setup transaction and
  the end-setup selector log update;
* `src/crud.py` / `src/models/schema_models.py` / `src/models/schemas.py`
  — the CRUD signatures, pydantic schema field declarations and ORM
  columns that several claims are about.

Conventions of the embedding:

* Python floats are modelled as exact rationals (`ℚ`); the float32
  constants of `score_utils.py` are transcribed digit for digit.
* UUIDs are modelled as natural numbers; the two team ids of a match are
  arbitrary naturals.
* `datetime` arithmetic is abstracted to the nonnegative rational
  `time_diff_seconds` that the handler actually computes.
* The external physics simulator is a black box; the only use the handler
  makes of its output that matters to the claims is the list
  `distance_list = [get_distance(team, x, y) for each stone]` built from
  it, so the embedded handler takes that (team, distance) list as a
  parameter and is quantified over all its values.
* Fallible code returns `Except`; a Python exception corresponds to an
  `.error` value.
-/

/-! ## Scoring utility (`src/score_utils.py`) -/

/-- `HOUSE_RADIUS` (float32 1.829 in the source, as an exact rational). -/
def HOUSE_RADIUS : ℚ := 1.829

/-- `STONE_RADIUS` (float32 0.145 in the source, as an exact rational). -/
def STONE_RADIUS : ℚ := 0.145

/-- `SCORE_DISTANCE = HOUSE_RADIUS + STONE_RADIUS`. -/
def SCORE_DISTANCE : ℚ := HOUSE_RADIUS + STONE_RADIUS

/-- Comparison used by `sorted(distance_list, key=lambda x: x[1])`:
order the (team, distance) pairs by distance. -/
def distLE : (ℕ × ℚ) → (ℕ × ℚ) → Prop := fun a b => a.2 ≤ b.2

instance : DecidableRel distLE := fun a b => inferInstanceAs (Decidable (a.2 ≤ b.2))

instance : IsTotal (ℕ × ℚ) distLE := ⟨fun a b => le_total a.2 b.2⟩

instance : IsTrans (ℕ × ℚ) distLE := ⟨fun _ _ _ hab hbc => le_trans hab hbc⟩

/-- Python `sorted(distance_list, key=lambda x: x[1])`: a stable sort of the
distance list by the distance component (insertion sort is stable, like
Python's sort; the theorems below additionally assume pairwise distinct
distances, under which every sort agrees). -/
def sortDistanceList (distance_list : List (ℕ × ℚ)) : List (ℕ × ℚ) :=
  List.insertionSort distLE distance_list

/-- `ScoreUtils.get_score` (src/score_utils.py lines 26-47).

Returns `some (scored_team?, points)`; the outer `none` models the
`IndexError` Python raises on an empty list at `sort_distance_list[0]`.
The loop `for team, distance in sort_distance_list[1:]` that increments
`score` while `team == scored_stones and distance <= SCORE_DISTANCE` and
breaks otherwise is the `takeWhile` prefix of the tail. -/
def get_score (distance_list : List (ℕ × ℚ)) : Option (Option ℕ × ℕ) :=
  match sortDistanceList distance_list with
  | [] => none
  | (t0, d0) :: rest =>
    if SCORE_DISTANCE < d0 then some (none, 0)
    else
      some (some t0,
        1 + (rest.takeWhile (fun p => p.1 == t0 && decide (p.2 ≤ SCORE_DISTANCE))).length)

/-- `ScoreUtils.calculate_score`: sum of the per-end scores. -/
def calculate_score (score_list : List ℤ) : ℤ := score_list.sum

/-- Rendering of the C3 claim's point count, following the claim's words:
the number of `team`'s stones *strictly* within the scoring radius that
are (strictly) closer than every stone of the other team. -/
def claimed_strict_score_count (distance_list : List (ℕ × ℚ)) (team : ℕ) : ℕ :=
  (distance_list.filter (fun p =>
    p.1 == team && decide (p.2 < SCORE_DISTANCE) &&
      decide (∀ q ∈ distance_list, q.1 ≠ team → p.2 < q.2))).length

/-- The same count with the radius bound made inclusive (`≤` instead of
`<`), which is what the code actually implements. -/
def within_radius_score_count (distance_list : List (ℕ × ℚ)) (team : ℕ) : ℕ :=
  (distance_list.filter (fun p =>
    p.1 == team && decide (p.2 ≤ SCORE_DISTANCE) &&
      decide (∀ q ∈ distance_list, q.1 ≠ team → p.2 < q.2))).length

/-! ## Rule parameter provider (`src/domain/match_rules.py`) -/

def MIX_DOUBLES_TOTAL_SHOTS_PER_END : ℕ := 10

def STANDARD_TOTAL_SHOTS_PER_END : ℕ := 16

/-- `stone_count_per_team`: 6 in mixed doubles, 8 otherwise. -/
def stone_count_per_team (game_mode : String) : ℕ :=
  if game_mode = "mix_doubles" then 6 else 8

/-- `total_shots_per_end`: 10 in mixed doubles, 16 otherwise. -/
def total_shots_per_end (game_mode : String) : ℕ :=
  if game_mode = "mix_doubles" then MIX_DOUBLES_TOTAL_SHOTS_PER_END
  else STANDARD_TOTAL_SHOTS_PER_END

/-- The `{"team0": [...], "team1": [...]}` stone-coordinate dict. -/
structure StoneLayoutData where
  team0 : List (ℚ × ℚ)
  team1 : List (ℚ × ℚ)
deriving DecidableEq, Repr

/-- `generate_reset_stone_coordinate_data`: all stones at the origin,
`stone_count_per_team` many per team. -/
def generate_reset_stone_coordinate_data (game_mode : String) : StoneLayoutData :=
  let count := stone_count_per_team game_mode
  ⟨List.replicate count (0, 0), List.replicate count (0, 0)⟩

def MD_POSITIONED_STONE_IN_HOUSE : ℚ × ℚ := (0, 38.870)

def MD_POWER_PLAY_IN_HOUSE : ℚ × ℚ := (1.219, 38.260)

def MD_POSITIONED_STONE_GUARD : List (ℚ × ℚ) :=
  [(0, 35.350), (0, 35.060), (0, 34.435), (0, 34.145), (0, 33.520), (0, 33.230)]

def MD_POWER_PLAY_GUARD : List (ℚ × ℚ) :=
  [(1.093, 35.350), (1.087, 35.060), (1.073, 34.435), (1.067, 34.145),
    (1.053, 33.520), (1.047, 33.230)]

/-- `data[team_name][0] = {...}`: overwrite stone 0 of the named team
(the callers only pass the names team0/team1; any other name selects the
team1 slot here, while Python would raise a KeyError). -/
def set_team_stone0 (d : StoneLayoutData) (team_name : String) (c : ℚ × ℚ) :
    StoneLayoutData :=
  if team_name = "team0" then { d with team0 := d.team0.set 0 c }
  else { d with team1 := d.team1.set 0 c }

/-- `generate_mixed_doubles_initial_stones` (match_rules.py lines 79-131).

Note the source keeps 8 stones per team "for simulator compatibility"
even though mixed doubles plays 6 stones per team; unused stones remain
at the origin. `ValueError`s become `.error` messages. -/
def generate_mixed_doubles_initial_stones (hammer_team_name : String)
    (power_play_side : Option String) (positioned_stones_pattern : ℤ)
    (hammer_stone_position : String) : Except String StoneLayoutData :=
  if positioned_stones_pattern < 0 ∨ 5 < positioned_stones_pattern then
    .error ("positioned_stones_pattern must be between 0 and 5")
  else
    let x_sign : ℚ := if power_play_side = some "left" then -1 else 1
    let data : StoneLayoutData := ⟨List.replicate 8 (0, 0), List.replicate 8 (0, 0)⟩
    let non_hammer_team_name := if hammer_team_name = "team0" then "team1" else "team0"
    let hg : (ℚ × ℚ) × (ℚ × ℚ) :=
      if power_play_side = some "left" ∨ power_play_side = some "right" then
        let house := MD_POWER_PLAY_IN_HOUSE
        let guard := MD_POWER_PLAY_GUARD.getD positioned_stones_pattern.toNat (0, 0)
        ((house.1 * x_sign, house.2), (guard.1 * x_sign, guard.2))
      else
        (MD_POSITIONED_STONE_IN_HOUSE,
          MD_POSITIONED_STONE_GUARD.getD positioned_stones_pattern.toNat (0, 0))
    if hammer_stone_position ≠ "guard" ∧ hammer_stone_position ≠ "house" then
      .error ("hammer_stone_position must be guard or house")
    else if hammer_stone_position = "guard" then
      .ok (set_team_stone0 (set_team_stone0 data non_hammer_team_name hg.1)
        hammer_team_name hg.2)
    else
      .ok (set_team_stone0 (set_team_stone0 data hammer_team_name hg.1)
        non_hammer_team_name hg.2)

/-! ## Match state machine (`src/routers/match.py`) -/

/-- The fields of `MatchDataSchema` that the shot handler reads. Team ids
(UUIDs in the source) are modelled as naturals. -/
structure MatchParams where
  first_team_id : ℕ
  second_team_id : ℕ
  standard_end_count : ℕ
  game_mode : String
deriving DecidableEq, Repr

/-- The fields of the latest `StateSchema` row (`pre_state_data`) that the
shot handler reads, together with the score row it references. The
nullable shot counters model the mixed-doubles pre-end-setup window. -/
structure PreState where
  winner_team_id : Option ℕ
  end_number : ℕ
  total_shot_number : Option ℕ
  first_team_remaining_time : ℚ
  second_team_remaining_time : ℚ
  first_team_extra_end_remaining_time : ℚ
  second_team_extra_end_remaining_time : ℚ
  next_shot_team_id : Option ℕ
  score_team0 : List ℤ
  score_team1 : List ℤ
deriving DecidableEq, Repr

/-- The remaining-time snapshots of the state written by the handler,
plus the winner decided (so far) by the clock check. -/
structure ClockOutcome where
  team0_remaining_time : ℚ
  team1_remaining_time : ℚ
  team0_extra_end_remaining_time : ℚ
  team1_extra_end_remaining_time : ℚ
  winner_team_id : Option ℕ
deriving DecidableEq, Repr

/-- Lines 599-629 of `receive_shot_info`: decrement the acting team's
remaining time — the regulation budget when the current end number is
below the standard end count, the extra-end budget otherwise. When the
decrement would go negative the opposing team is recorded as
(provisional) winner and the clock clamps to zero. -/
def update_remaining_time (m : MatchParams) (pre : PreState) (match_team_name : String)
    (time_diff_seconds : ℚ) : ClockOutcome :=
  if pre.end_number < m.standard_end_count then
    if match_team_name = "team0" then
      let t := pre.first_team_remaining_time - time_diff_seconds
      if t < 0 then
        ⟨0, pre.second_team_remaining_time, pre.first_team_extra_end_remaining_time,
          pre.second_team_extra_end_remaining_time, some m.second_team_id⟩
      else
        ⟨t, pre.second_team_remaining_time, pre.first_team_extra_end_remaining_time,
          pre.second_team_extra_end_remaining_time, none⟩
    else if match_team_name = "team1" then
      let t := pre.second_team_remaining_time - time_diff_seconds
      if t < 0 then
        ⟨pre.first_team_remaining_time, 0, pre.first_team_extra_end_remaining_time,
          pre.second_team_extra_end_remaining_time, some m.first_team_id⟩
      else
        ⟨pre.first_team_remaining_time, t, pre.first_team_extra_end_remaining_time,
          pre.second_team_extra_end_remaining_time, none⟩
    else
      ⟨pre.first_team_remaining_time, pre.second_team_remaining_time,
        pre.first_team_extra_end_remaining_time, pre.second_team_extra_end_remaining_time,
        none⟩
  else
    if match_team_name = "team0" then
      let t := pre.first_team_extra_end_remaining_time - time_diff_seconds
      if t < 0 then
        ⟨pre.first_team_remaining_time, pre.second_team_remaining_time, 0,
          pre.second_team_extra_end_remaining_time, some m.second_team_id⟩
      else
        ⟨pre.first_team_remaining_time, pre.second_team_remaining_time, t,
          pre.second_team_extra_end_remaining_time, none⟩
    else if match_team_name = "team1" then
      let t := pre.second_team_extra_end_remaining_time - time_diff_seconds
      if t < 0 then
        ⟨pre.first_team_remaining_time, pre.second_team_remaining_time,
          pre.first_team_extra_end_remaining_time, 0, some m.first_team_id⟩
      else
        ⟨pre.first_team_remaining_time, pre.second_team_remaining_time,
          pre.first_team_extra_end_remaining_time, t, none⟩
    else
      ⟨pre.first_team_remaining_time, pre.second_team_remaining_time,
        pre.first_team_extra_end_remaining_time, pre.second_team_extra_end_remaining_time,
        none⟩

/-- Lines 729-739 of `receive_shot_info`: the current end's selector as
looked up in `mix_doubles_settings.end_setup_team_ids` (through `getattr`
with a `None` default and an index-bounds check), falling back to the
second team when absent. -/
def current_selector_for_end (m : MatchParams) (end_setup_team_ids : Option (List ℕ))
    (end_number : ℕ) : ℕ :=
  (match end_setup_team_ids with
    | some ids => ids[end_number]?
    | none => none).getD m.second_team_id

/-- Everything the end-completion block (lines 694-791) decides: the
updated score lists, the winner after the block, the first thrower of the
next end, and (mixed doubles) the next end's selector. -/
structure EndCompletion where
  team0_score : List ℤ
  team1_score : List ℤ
  winner_team_id : Option ℕ
  next_end_first_shot_team_id : Option ℕ
  next_end_selector_team_id : Option ℕ
deriving DecidableEq, Repr

/-- The exceptions the embedded shot pipeline can surface. -/
inductive ShotErr
  | matchFinished
  | endSetupRequired
  | notYourTurn
  | scoreIndexError
  | nextTeamMissing
deriving DecidableEq, Repr

/-- The end-completion block of `receive_shot_info` (lines 694-791),
entered when the shot just thrown is the end's last. `winner0` is the
winner decided by the clock check. Python's `team0_score[end_number] = s`
is modelled with `List.set` (out-of-range indices, where Python would
raise `IndexError`, are unreachable from states whose score lists have
their `standard_end_count + 1` slots). -/
def end_completion (m : MatchParams) (end_setup_team_ids : Option (List ℕ))
    (pre : PreState) (match_team_name : String) (winner0 : Option ℕ)
    (distance_list : List (ℕ × ℚ)) : Except ShotErr EndCompletion :=
  match get_score distance_list with
  | none => .error .scoreIndexError
  | some (scored_team, score) =>
    let next_end_first0 : Option ℕ :=
      if scored_team = none then
        some (if match_team_name = "team1" then m.first_team_id else m.second_team_id)
      else none
    let next_end_selector : Option ℕ :=
      if m.game_mode = "mix_doubles" then
        let current_selector := current_selector_for_end m end_setup_team_ids pre.end_number
        if scored_team = some 0 then some m.second_team_id
        else if scored_team = some 1 then some m.first_team_id
        else
          some (if current_selector = m.first_team_id then m.second_team_id
            else m.first_team_id)
      else none
    let step1 : List ℤ × List ℤ × Option ℕ × Option ℕ :=
      if pre.end_number < m.standard_end_count then
        if scored_team = some 0 then
          (pre.score_team0.set pre.end_number (score : ℤ),
            pre.score_team1.set pre.end_number 0, winner0, some m.second_team_id)
        else if scored_team = some 1 then
          (pre.score_team0.set pre.end_number 0,
            pre.score_team1.set pre.end_number (score : ℤ), winner0, some m.first_team_id)
        else (pre.score_team0, pre.score_team1, winner0, next_end_first0)
      else
        if scored_team = some 0 then
          (pre.score_team0.set m.standard_end_count (score : ℤ),
            pre.score_team1.set m.standard_end_count 0, some m.first_team_id, none)
        else if scored_team = some 1 then
          (pre.score_team0.set m.standard_end_count 0,
            pre.score_team1.set m.standard_end_count (score : ℤ), some m.second_team_id, none)
        else (pre.score_team0, pre.score_team1, winner0, next_end_first0)
    let t0s := step1.1
    let t1s := step1.2.1
    let winner1 := step1.2.2.1
    let nef := step1.2.2.2
    if (m.standard_end_count : ℤ) - 1 ≤ (pre.end_number : ℤ) then
      let team0_total := calculate_score t0s
      let team1_total := calculate_score t1s
      if team1_total < team0_total then
        .ok ⟨t0s, t1s, some m.first_team_id, none, next_end_selector⟩
      else if team0_total < team1_total then
        .ok ⟨t0s, t1s, some m.second_team_id, none, next_end_selector⟩
      else
        .ok ⟨t0s, t1s, none, nef, next_end_selector⟩
    else .ok ⟨t0s, t1s, winner1, nef, next_end_selector⟩

/-- The fields of the next-end `StateSchema` row that
`state_end_number_update` (match.py lines 69-128) creates. -/
structure NextEndState where
  winner_team_id : Option ℕ
  end_number : ℕ
  shot_number : Option ℕ
  total_shot_number : Option ℕ
  next_shot_team_id : Option ℕ
  stone_coordinate : StoneLayoutData
deriving DecidableEq, Repr

/-- `state_end_number_update`: build the fresh state for end
`end_number + 1`. In mixed doubles the shot counters and the next team
are null (awaiting end setup); in standard mode they restart at zero and
a missing next team is a 500 error. -/
def state_end_number_update (game_mode : String) (winner_team_id : Option ℕ)
    (end_number : ℕ) (next_shot_team_id : Option ℕ) : Except ShotErr NextEndState :=
  let layout := generate_reset_stone_coordinate_data game_mode
  if game_mode = "mix_doubles" then
    .ok ⟨winner_team_id, end_number + 1, none, none, none, layout⟩
  else
    match next_shot_team_id with
    | none => .error .nextTeamMissing
    | some t => .ok ⟨winner_team_id, end_number + 1, some 0, some 0, some t, layout⟩

/-- Everything `receive_shot_info` persists for one accepted shot: the new
`StateSchema` row, the score update (last shot only), the
`set_end_setup_team_for_end` call (mixed doubles, match continuing), and
the next end's fresh state. -/
structure PostState where
  winner_team_id : Option ℕ
  end_number : ℕ
  shot_number : ℕ
  total_shot_number : ℕ
  first_team_remaining_time : ℚ
  second_team_remaining_time : ℚ
  first_team_extra_end_remaining_time : ℚ
  second_team_extra_end_remaining_time : ℚ
  next_shot_team_id : Option ℕ
deriving DecidableEq, Repr

structure ShotOutcome where
  post : PostState
  score_write : Option (List ℤ × List ℤ)
  selector_write : Option (ℕ × ℕ)
  next_end_state : Option NextEndState
deriving DecidableEq, Repr

/-- The shot-resolution pipeline `receive_shot_info`
(src/routers/match.py lines 496-839), as a transition function.

The parameters that stand for external collaborators: `match_team_name`
is the authenticated caller's team name; `time_diff_seconds` is the
wall-clock seconds elapsed since the previous state's creation;
`distance_list` is the list `[get_distance(team, x, y) for each stone]`
computed from the black-box simulator's output layout (it only enters the
last shot of an end). Player resolution, dispersion and the simulator
call sit between the turn check and the clock update in the source and
influence none of the persisted fields below except through
`distance_list`. Field names of the constructed rows are the normalized
ones; the constructor-keyword mismatch of the source's `ShotInfoSchema`
call is modelled separately (see `shot_info_schema_required_fields`). -/
def receive_shot_info (m : MatchParams) (end_setup_team_ids : Option (List ℕ))
    (pre : PreState) (match_team_name : String) (time_diff_seconds : ℚ)
    (distance_list : List (ℕ × ℚ)) : Except ShotErr ShotOutcome :=
  if pre.winner_team_id.isSome then .error .matchFinished
  else match pre.next_shot_team_id, pre.total_shot_number with
  | none, _ => .error .endSetupRequired
  | some _, none => .error .endSetupRequired
  | some shot_team_id, some total_shot_number =>
    let shot_team_name := if shot_team_id = m.first_team_id then "team0" else "team1"
    if shot_team_name ≠ match_team_name then .error .notYourTurn
    else
      let clock := update_remaining_time m pre match_team_name time_diff_seconds
      let total1 := total_shot_number + 1
      let shot_per_team := total1 / 2
      let next_shot_team_id : ℕ :=
        if shot_team_id = m.second_team_id then m.first_team_id else m.second_team_id
      let shots_per_end := total_shots_per_end m.game_mode
      if total1 = shots_per_end then
        match end_completion m end_setup_team_ids pre match_team_name clock.winner_team_id
            distance_list with
        | .error e => .error e
        | .ok ec =>
          let post : PostState := ⟨ec.winner_team_id, pre.end_number, shot_per_team, total1,
            clock.team0_remaining_time, clock.team1_remaining_time,
            clock.team0_extra_end_remaining_time, clock.team1_extra_end_remaining_time,
            none⟩
          if ec.winner_team_id = none then
            let selector_write : Option (ℕ × ℕ) :=
              if m.game_mode = "mix_doubles" then
                match ec.next_end_selector_team_id with
                | some s => some (pre.end_number + 1, s)
                | none => none
              else none
            match state_end_number_update m.game_mode post.winner_team_id post.end_number
                ec.next_end_first_shot_team_id with
            | .error e => .error e
            | .ok ns =>
              .ok ⟨post, some (ec.team0_score, ec.team1_score), selector_write, some ns⟩
          else .ok ⟨post, some (ec.team0_score, ec.team1_score), none, none⟩
      else
        let post : PostState := ⟨clock.winner_team_id, pre.end_number, shot_per_team, total1,
          clock.team0_remaining_time, clock.team1_remaining_time,
          clock.team0_extra_end_remaining_time, clock.team1_extra_end_remaining_time,
          some next_shot_team_id⟩
        .ok ⟨post, none, none, none⟩

def acting_remaining_pre (m : MatchParams) (pre : PreState) (match_team_name : String) : ℚ :=
  if pre.end_number < m.standard_end_count then
    if match_team_name = "team0" then pre.first_team_remaining_time
    else pre.second_team_remaining_time
  else
    if match_team_name = "team0" then pre.first_team_extra_end_remaining_time
    else pre.second_team_extra_end_remaining_time

def acting_remaining_post (m : MatchParams) (pre : PreState) (match_team_name : String)
    (post : PostState) : ℚ :=
  if pre.end_number < m.standard_end_count then
    if match_team_name = "team0" then post.first_team_remaining_time
    else post.second_team_remaining_time
  else
    if match_team_name = "team0" then post.first_team_extra_end_remaining_time
    else post.second_team_extra_end_remaining_time

def opponent_team (m : MatchParams) (match_team_name : String) : ℕ :=
  if match_team_name = "team0" then m.second_team_id else m.first_team_id

def is_final_score_comparison_shot (m : MatchParams) (pre : PreState) : Prop :=
  pre.total_shot_number = some (total_shots_per_end m.game_mode - 1) ∧
    (m.standard_end_count : ℤ) - 1 ≤ (pre.end_number : ℤ)


instance (m : MatchParams) (pre : PreState) :
    Decidable (is_final_score_comparison_shot m pre) :=
  inferInstanceAs (Decidable (_ = _ ∧ _ ≤ _))

/-- The pure list update of `set_end_setup_team_for_end`
(src/services/match_db.py lines 299-323), given the current
`end_setup_team_ids` value: seed an empty list, overwrite an existing
index, append at the next index, and report a gap otherwise
(`RuntimeError`). -/
def set_end_setup_team_for_end_list (current : List ℕ) (end_number : ℕ)
    (selector_team_id : ℕ) : Except String (List ℕ) :=
  let l := if current = [] then [selector_team_id] else current
  if end_number < l.length then .ok (l.set end_number selector_team_id)
  else if end_number = l.length then .ok (l ++ [selector_team_id])
  else .error ("end_setup_team_ids has a gap; cannot set future end without previous entries.")

/-- Modelled from the spec: `PositionedStonesModel` is imported by the router
from `src.models.dc_models` but is defined nowhere under src/; per the spec a
setup request selects one of four layouts (power-play-left, power-play-right,
center-house, center-guard), exactly the four members the service compares
the request against. -/
inductive PositionedStonesModel
  | pp_left
  | pp_right
  | center_house
  | center_guard
deriving DecidableEq, Repr

/-- The attributes of the mixed-doubles settings row as the service layer
reads and writes them. NOTE: `end_setup_team_ids` is used by the service but
is not a column of the `match_mix_doubles_settings` table (see
`match_mix_doubles_settings_columns`). -/
structure MdSettingsRow where
  positioned_stones_pattern : ℤ
  team0_power_play_end : Option ℕ
  team1_power_play_end : Option ℕ
  end_setup_team_ids : List ℕ
deriving DecidableEq, Repr

inductive SetupErr
  | valueError (msg : String)
  | runtimeError (msg : String)
deriving DecidableEq, Repr

/-- The fields of the setup `StateSchema` row created by
`perform_mix_doubles_end_setup` that the claims are about (times are copied
from the latest state). -/
structure SetupState where
  end_number : ℕ
  shot_number : ℕ
  total_shot_number : ℕ
  next_shot_team_id : ℕ
  stone_coordinate : StoneLayoutData
deriving DecidableEq, Repr

/-- The transactional body of `perform_mix_doubles_end_setup`
(src/services/match_db.py lines 149-273) downstream of the settings-row
read, with the locked row passed in and the updated row passed out (explicit
state passing). `latest.end_number < 0` cannot occur with ℕ end numbers, so
the source's `Invalid end_number` guard is omitted. The
`positioned_stones_pattern` is read off the settings row (the source reads
the same value via `match_data.mix_doubles_settings`). -/
def perform_mix_doubles_end_setup (m : MatchParams) (row : MdSettingsRow)
    (latest : PreState) (match_team_name : String) (request : PositionedStonesModel) :
    Except SetupErr (MdSettingsRow × SetupState) :=
  let caller_team_id := if match_team_name = "team0" then m.first_team_id
    else m.second_team_id
  let other_team_id := if match_team_name = "team0" then m.second_team_id
    else m.first_team_id
  let other_team_name := if match_team_name = "team0" then "team1" else "team0"
  let selector_list := if row.end_setup_team_ids = [] then [m.second_team_id]
    else row.end_setup_team_ids
  let row1 : MdSettingsRow := { row with end_setup_team_ids := selector_list }
  let current_end := latest.end_number
  match selector_list[current_end]? with
  | none => .error (.valueError ("end_setup_team_ids is missing entries for current end."))
  | some expected_selector_team_id =>
    if caller_team_id ≠ expected_selector_team_id then
      .error (.valueError ("Not your turn to setup positioned stones."))
    else
    let parsed : Option String × Bool :=
      match request with
      | .pp_left => (some "left", true)
      | .pp_right => (some "right", true)
      | .center_house => (none, true)
      | .center_guard => (none, false)
    let power_play_requested := parsed.1.isSome
    let is_extra_end : Bool := decide (m.standard_end_count ≤ current_end)
    let adjusted : Option String × Bool × Bool :=
      if power_play_requested && is_extra_end then (none, true, false)
      else (parsed.1, parsed.2, power_play_requested)
    let power_play_side := adjusted.1
    let selector_is_hammer := adjusted.2.1
    let pp_final := adjusted.2.2
    let hammer_team_name := if selector_is_hammer then match_team_name else other_team_name
    let first_throw_team_id := if selector_is_hammer then other_team_id else caller_team_id
    let used_end := if match_team_name = "team0" then row1.team0_power_play_end
      else row1.team1_power_play_end
    if pp_final && used_end.isSome then
      .error (.valueError ("Power play already used."))
    else
      let row2 : MdSettingsRow :=
        if pp_final then
          (if match_team_name = "team0" then
            { row1 with team0_power_play_end := some current_end }
          else { row1 with team1_power_play_end := some current_end })
        else row1
      match generate_mixed_doubles_initial_stones hammer_team_name power_play_side
          row.positioned_stones_pattern "house" with
      | .error msg => .error (.valueError msg)
      | .ok stone_data =>
        .ok (row2, ⟨latest.end_number, 0, 0, first_throw_team_id, stone_data⟩)

/-- Python's `pat in s` on lists of characters: some suffix of `s` starts
with `pat`. -/
def contains_sublist : List Char → List Char → Bool
  | [], pat => pat.isEmpty
  | c :: t, pat => pat.isPrefixOf (c :: t) || contains_sublist t pat

/-- The router maps a `ValueError` raised by the end-setup service to HTTP
400 when its message contains "only be used", and to 409 Conflict otherwise
(match.py lines 875-886); a `RuntimeError` escapes unhandled (500). -/
def end_setup_http_status (e : SetupErr) : ℕ :=
  match e with
  | .valueError msg =>
    if contains_sublist msg.toList ("only be used").toList then 400 else 409
  | .runtimeError _ => 500

/-- The method names defined on `class ReadData` in src/crud.py. -/
def read_data_methods : List String :=
  ["read_match_data", "read_mix_doubles_end_setup", "read_state_data",
    "read_latest_state_data", "read_state_data_in_end", "read_stone_data",
    "read_score_data", "read_team_id", "read_player_id", "read_player_data",
    "read_simulator_name", "read_simulator_id", "read_shot_info_data",
    "read_last_shot_info_by_post_state_id"]

/-- The columns of the `match_mix_doubles_settings` table
(src/models/schemas.py lines 135-147). -/
def match_mix_doubles_settings_columns : List String :=
  ["match_id", "positioned_stones_pattern", "team0_power_play_end",
    "team1_power_play_end"]

inductive PyAttrError
  | attributeError (cls attr : String)
deriving DecidableEq, Repr

/-- Python attribute lookup on the `ReadData` class: resolving a method the
class does not define raises `AttributeError`. -/
def read_data_attr (attr : String) : Except PyAttrError String :=
  if read_data_methods.contains attr then .ok attr
  else .error (.attributeError "ReadData" attr)

/-- `perform_mix_doubles_end_setup` as actually executed: the transaction
first resolves `ReadData.read_mix_doubles_settings_row_for_update`
(match_db.py line 157) before any other work; `row` is the settings row the
read would return if it existed. -/
def perform_mix_doubles_end_setup_db (m : MatchParams) (row : Option MdSettingsRow)
    (latest : PreState) (match_team_name : String) (request : PositionedStonesModel) :
    Except (PyAttrError ⊕ SetupErr) (MdSettingsRow × SetupState) :=
  match read_data_attr "read_mix_doubles_settings_row_for_update" with
  | .error e => .error (.inl e)
  | .ok _ =>
    match row with
    | none => .error (.inr (.runtimeError ("Mixed doubles settings row not found.")))
    | some r =>
      (perform_mix_doubles_end_setup m r latest match_team_name request).mapError .inr

/-- `set_end_setup_team_for_end` as actually executed (match_db.py lines
299-323): it too starts by resolving the missing read helper. -/
def set_end_setup_team_for_end_db (row : Option MdSettingsRow) (end_number : ℕ)
    (selector_team_id : ℕ) : Except (PyAttrError ⊕ String) (List ℕ) :=
  match read_data_attr "read_mix_doubles_settings_row_for_update" with
  | .error e => .error (.inl e)
  | .ok _ =>
    match row with
    | none => .error (.inr ("Mixed doubles settings row not found."))
    | some r =>
      (set_end_setup_team_for_end_list r.end_setup_team_ids end_number
        selector_team_id).mapError .inr

/-! ## Schema and CRUD signature models (`src/models/schema_models.py`,
`src/crud.py`, `src/services/match_db.py`) -/

/-- Nullability declared by `StateSchema` (schema_models.py lines 74-94):
`shot_number : int` and `total_shot_number : int` admit no null, while
`winner_team_id`, `shot_id` and `next_shot_team_id` are `... | None`. -/
def state_schema_shot_number_nullable : Bool := false

def state_schema_total_shot_number_nullable : Bool := false

def state_schema_next_shot_team_id_nullable : Bool := true

/-- pydantic validation of one field value: a null passes only when the
annotation admits null. -/
def pydantic_field_ok (nullable : Bool) (value : Option ℤ) : Bool :=
  nullable || value.isSome

/-- The `shot_number` value `start_match` passes when constructing the
initial `StateSchema` (match.py line 209). -/
def start_match_initial_shot_number (game_mode : String) : Option ℤ :=
  if game_mode = "mix_doubles" then none else some 0

/-- The `total_shot_number` value `start_match` passes (match.py line 210). -/
def start_match_initial_total_shot_number (game_mode : String) : Option ℤ :=
  if game_mode = "mix_doubles" then none else some 0

/-- Whether the `StateSchema(...)` construction in `start_match` passes
pydantic validation for the given mode (only the two counter fields can
reject). -/
def start_match_initial_state_accepted (game_mode : String) : Bool :=
  pydantic_field_ok state_schema_shot_number_nullable
      (start_match_initial_shot_number game_mode) &&
    pydantic_field_ok state_schema_total_shot_number_nullable
      (start_match_initial_total_shot_number game_mode)

/-- The required field names declared by `ShotInfoSchema`
(schema_models.py lines 57-71). -/
def shot_info_schema_required_fields : List String :=
  ["shot_id", "player_id", "team_id", "trajectory_id", "pre_shot_state_id",
    "post_shot_state_id", "actual_translation_velocity", "actual_shot_angle",
    "translation_velocity", "angular_velocity", "shot_angle"]

/-- The keyword arguments `receive_shot_info` passes to the
`ShotInfoSchema` constructor (match.py lines 652-664). -/
def receive_shot_info_shot_kwargs : List String :=
  ["shot_id", "player_id", "team_id", "trajectory_id", "pre_shot_state_id",
    "post_shot_state_id", "actual_translational_velocity", "actual_shot_angle",
    "translational_velocity", "shot_angle", "angular_velocity"]

/-- pydantic v2 model construction succeeds iff every required declared
field is among the supplied keyword arguments (extra keywords are ignored
under the default config). -/
def pydantic_init_accepted (required provided : List String) : Bool :=
  required.all (fun f => provided.contains f)

/-- The persistence-relevant steps of `receive_shot_info` in source order:
the `ShotInfoSchema` construction (line 652) precedes every database write
(`update_score` line 779, `record_shot_result` line 811) and the publish
(line 818). -/
def receive_shot_info_effect_order : List String :=
  ["construct_shot_info_schema", "update_score", "record_shot_result",
    "publish_state_update", "set_end_setup_team_for_end", "state_end_number_update"]

/-- Parameters of `UpdateData.update_first_team` (crud.py lines 83-98; a
`@staticmethod`, so no `self`). -/
def crud_update_first_team_params : List String :=
  ["match_id", "session", "player_id_list", "team_name"]

/-- Parameters of `UpdateData.update_second_team` (crud.py lines 127-142). -/
def crud_update_second_team_params : List String :=
  ["match_id", "session", "player_id_list", "team_name"]

/-- Positional arguments the `match_db` service wrappers pass
(match_db.py lines 104-111). -/
def service_update_first_team_args : List String :=
  ["match_id", "session", "team_id", "player_id_list", "team_name"]

def service_update_second_team_args : List String :=
  ["match_id", "session", "team_id", "player_id_list", "team_name"]

/-- A Python call that passes only positional arguments to a function with
no defaults and no varargs succeeds iff the counts agree; otherwise it
raises `TypeError`. -/
def python_positional_call_ok (param_count arg_count : ℕ) : Bool :=
  param_count = arg_count

/-- The `Match` columns assigned by `UpdateData.update_first_team`
(crud.py lines 110-119). -/
def crud_update_first_team_assigned_columns : List String :=
  ["first_team_name", "first_team_player1_id", "first_team_player2_id",
    "first_team_player3_id", "first_team_player4_id"]

/-- The `Match` columns assigned by `UpdateData.update_second_team`
(crud.py lines 154-163). -/
def crud_update_second_team_assigned_columns : List String :=
  ["second_team_name", "second_team_player1_id", "second_team_player2_id",
    "second_team_player3_id", "second_team_player4_id"]


/-! ## Concrete runs used by the counterexamples and witnesses -/

/-- A mixed-doubles match (first team id 10, second team id 20, 8 standard
ends). -/
def md_match : MatchParams := ⟨10, 20, 8, "mix_doubles"⟩

/-- The state before the last (10th) shot of end 0 of `md_match`. -/
def md_pre : PreState :=
  ⟨none, 0, some 9, 100, 100, 100, 100, some 10,
    List.replicate 9 0, List.replicate 9 0⟩

/-- A final-layout distance list for `md_match` (6 stones per team): team
0's closest stone is 1 m from the tee (inside the house), every other
stone is out of play. -/
def md_dl : List (ℕ × ℚ) :=
  [(0, 1), (1, 2), (0, 3), (1, 4), (0, 5), (1, 6), (0, 7), (1, 8), (0, 9), (1, 10),
    (0, 11), (1, 12)]

/-- The outcome `receive_shot_info` produces on the run above. -/
def md_outcome : ShotOutcome :=
  ⟨⟨none, 0, 5, 10, 100, 100, 100, 100, none⟩,
    some ((List.replicate 9 0).set 0 1, List.replicate 9 0),
    some (1, 20),
    some ⟨none, 1, none, none, none, generate_reset_stone_coordinate_data "mix_doubles"⟩⟩

/-- A one-end standard match (team ids 10 and 20). -/
def clockcex_match : MatchParams := ⟨10, 20, 1, "standard"⟩

/-- The state before the last (16th) shot of the only regulation end:
team 0 has 5 seconds of regulation time left. -/
def clockcex_pre : PreState :=
  ⟨none, 0, some 15, 5, 100, 100, 100, some 10, [0, 0], [0, 0]⟩

/-- A final layout in which team 0 has the single scoring stone. -/
def clockcex_dl : List (ℕ × ℚ) :=
  [(0, 1), (1, 2), (0, 3), (1, 4), (0, 5), (1, 6), (0, 7), (1, 8), (0, 9), (1, 10),
    (0, 11), (1, 12), (0, 13), (1, 14), (0, 15), (1, 16)]

/-- An 8-end standard match (team ids 10 and 20). -/
def clockw_match : MatchParams := ⟨10, 20, 8, "standard"⟩

/-- A mid-end state: 3 shots thrown, team 0 to throw with 5 seconds of
regulation time left. -/
def clockw_pre : PreState :=
  ⟨none, 0, some 3, 5, 100, 100, 100, some 10,
    List.replicate 9 0, List.replicate 9 0⟩

/-- The outcome of team 0 shooting after 10 elapsed seconds from
`clockw_pre`: its clock goes negative, clamps to zero, and the second
team is recorded as winner. -/
def clockw_outcome : ShotOutcome :=
  ⟨⟨some 20, 0, 2, 4, 0, 100, 100, 100, some 20⟩, none, none, none⟩

/-- An 8-end standard match for the turn-alternation witness. -/
def altw_match : MatchParams := ⟨10, 20, 8, "standard"⟩

/-- A mid-end state: 3 shots thrown, team 0 (id 10) to throw. -/
def altw_pre : PreState :=
  ⟨none, 0, some 3, 100, 100, 100, 100, some 10,
    List.replicate 9 0, List.replicate 9 0⟩

/-- The outcome of the 4th shot of the end from `altw_pre`. -/
def altw_outcome : ShotOutcome :=
  ⟨⟨none, 0, 2, 4, 100, 100, 100, 100, some 20⟩, none, none, none⟩

/-- A mixed-doubles settings row in which team 0 already consumed its
power play (in end 0); team 0 (id 10) is end 1's selector. -/
def ppw_row : MdSettingsRow := ⟨0, some 0, none, [20, 10]⟩

/-- A pre-end-setup state in regulation end 1. -/
def ppw_latest_reg : PreState := ⟨none, 1, none, 100, 100, 100, 100, none, [], []⟩

/-- A pre-end-setup state in extra end 8 (standard end count is 8). -/
def ppw_latest_extra : PreState := ⟨none, 8, none, 100, 100, 100, 100, none, [], []⟩

/-- The mixed-doubles match used by the power-play witness. -/
def ppw_match : MatchParams := ⟨10, 20, 8, "mix_doubles"⟩

/-- The positioned-stone layout generated for a center-house setup with
hammer team1 and pattern 0. -/
def c8_layout : StoneLayoutData :=
  (generate_mixed_doubles_initial_stones "team1" none 0 "house").toOption.getD ⟨[], []⟩

lemma sortDistanceList_perm (l : List (ℕ × ℚ)) : (sortDistanceList l).Perm l :=
  List.perm_insertionSort distLE l

lemma sortDistanceList_sorted (l : List (ℕ × ℚ)) :
    (sortDistanceList l).Pairwise (fun a b => a.2 ≤ b.2) :=
  List.sorted_insertionSort distLE l

lemma dropWhile_head_false {α : Type} (p : α → Bool) (l : List α) :
    l.dropWhile p = [] ∨ ∃ w t, l.dropWhile p = w :: t ∧ p w = false := by
  induction l with
  | nil => exact Or.inl rfl
  | cons a l ih =>
    by_cases h : p a
    · simpa [List.dropWhile, h] using ih
    · exact Or.inr ⟨a, l, by simp [List.dropWhile, h], by simpa using h⟩


lemma within_radius_count_eq_takeWhile (l : List (ℕ × ℚ)) (t0 : ℕ) (d0 : ℚ)
    (rest : List (ℕ × ℚ)) (hperm : ((t0, d0) :: rest).Perm l)
    (hsorted : ((t0, d0) :: rest).Pairwise (fun a b => a.2 ≤ b.2))
    (hdists : ((t0, d0) :: rest).Pairwise (fun a b => a.2 ≠ b.2))
    (hd0 : d0 ≤ SCORE_DISTANCE) :
    within_radius_score_count l t0 =
      1 + (rest.takeWhile (fun p => p.1 == t0 && decide (p.2 ≤ SCORE_DISTANCE))).length := by
  have hmem_iff : ∀ q, q ∈ ((t0, d0) :: rest) ↔ q ∈ l := fun q => hperm.mem_iff
  have hhead_le : ∀ q ∈ rest, d0 ≤ q.2 := (List.pairwise_cons.mp hsorted).1
  have hhead_ne : ∀ q ∈ rest, d0 ≠ q.2 := (List.pairwise_cons.mp hdists).1
  set Q : (ℕ × ℚ) → Bool := fun p => p.1 == t0 && decide (p.2 ≤ SCORE_DISTANCE) with hQdef
  set P : (ℕ × ℚ) → Bool := fun p =>
    p.1 == t0 && decide (p.2 ≤ SCORE_DISTANCE) &&
      decide (∀ q ∈ l, q.1 ≠ t0 → p.2 < q.2) with hPdef
  have hsplit : rest.takeWhile Q ++ rest.dropWhile Q = rest := by
    simp [List.takeWhile_append_dropWhile]
  have hsr : (rest.takeWhile Q ++ rest.dropWhile Q).Pairwise
      (fun a b : ℕ × ℚ => a.2 ≤ b.2) := by
    rw [hsplit]
    exact (List.pairwise_cons.mp hsorted).2
  have hdr : (rest.takeWhile Q ++ rest.dropWhile Q).Pairwise
      (fun a b : ℕ × ℚ => a.2 ≠ b.2) := by
    rw [hsplit]
    exact (List.pairwise_cons.mp hdists).2
  obtain ⟨-, hsdr, hcross_le⟩ := List.pairwise_append.mp hsr
  obtain ⟨-, -, hcross_ne⟩ := List.pairwise_append.mp hdr
  have hmem_dr_rest : ∀ q ∈ rest.dropWhile Q, q ∈ rest := by
    intro q hq
    rw [← hsplit]
    exact List.mem_append_right _ hq
  have hmem_tw_rest : ∀ q ∈ rest.takeWhile Q, q ∈ rest := by
    intro q hq
    rw [← hsplit]
    exact List.mem_append_left _ hq
  -- every element of the takeWhile prefix satisfies the full predicate P
  have h1 : (rest.takeWhile Q).filter P = rest.takeWhile Q := by
    rw [List.filter_eq_self]
    intro p hp
    have hQp := List.mem_takeWhile_imp hp
    rw [hQdef] at hQp
    simp only [Bool.and_eq_true, beq_iff_eq, decide_eq_true_eq] at hQp
    rw [hPdef]
    simp only [Bool.and_eq_true, beq_iff_eq, decide_eq_true_eq]
    refine ⟨hQp, ?_⟩
    intro q hql hq1
    rcases List.mem_cons.mp ((hmem_iff q).mpr hql) with hqh | hqr
    · exact absurd (by rw [hqh]) hq1
    · rw [← hsplit] at hqr
      rcases List.mem_append.mp hqr with hq2 | hq2
      · have := List.mem_takeWhile_imp hq2
        rw [hQdef] at this
        simp only [Bool.and_eq_true, beq_iff_eq, decide_eq_true_eq] at this
        exact absurd this.1 hq1
      · exact lt_of_le_of_ne (hcross_le p hp q hq2) (hcross_ne p hp q hq2)
  -- no element after the cut satisfies P
  have h2 : (rest.dropWhile Q).filter P = [] := by
    rw [List.filter_eq_nil_iff]
    intro p hp hPp
    rw [hPdef] at hPp
    simp only [Bool.and_eq_true, beq_iff_eq, decide_eq_true_eq] at hPp
    obtain ⟨⟨hp1, hp2⟩, hp3⟩ := hPp
    rcases dropWhile_head_false Q rest with hnil | ⟨w, dr2, hdr_eq, hQw⟩
    · rw [hnil] at hp
      exact absurd hp (List.not_mem_nil p)
    · rw [hQdef] at hQw
      simp only [Bool.and_eq_false_iff] at hQw
      have hw_le : ∀ b ∈ dr2, w.2 ≤ b.2 := by
        have := hsdr
        rw [hdr_eq] at this
        exact (List.pairwise_cons.mp this).1
      rw [hdr_eq] at hp
      have hwl : w ∈ l := by
        refine (hmem_iff w).mp (List.mem_cons_of_mem _ (hmem_dr_rest w ?_))
        rw [hdr_eq]
        exact List.mem_cons_self _ _
      rcases List.mem_cons.mp hp with hpw | hp2'
      · rcases hQw with hw1 | hw2
        · rw [hpw] at hp1
          simp only [beq_eq_false_iff_ne] at hw1
          exact hw1 hp1
        · rw [hpw] at hp2
          simp only [decide_eq_false_iff_not] at hw2
          exact hw2 hp2
      · have hw_le_p : w.2 ≤ p.2 := hw_le p hp2'
        rcases hQw with hw1 | hw2
        · simp only [beq_eq_false_iff_ne] at hw1
          have := hp3 w hwl hw1
          exact absurd (lt_of_le_of_lt hw_le_p this) (lt_irrefl _)
        · simp only [decide_eq_false_iff_not] at hw2
          exact hw2 (le_trans hw_le_p hp2)
  have hPhead : P (t0, d0) = true := by
    rw [hPdef]
    simp only [Bool.and_eq_true, beq_iff_eq, decide_eq_true_eq]
    refine ⟨?_, ?_⟩
    · exact ⟨trivial, hd0⟩
    intro q hql hq1
    rcases List.mem_cons.mp ((hmem_iff q).mpr hql) with hqh | hqr
    · exact absurd (by rw [hqh]) hq1
    · exact lt_of_le_of_ne (hhead_le q hqr) (hhead_ne q hqr)
  have hfilter : ((t0, d0) :: rest).filter P = (t0, d0) :: rest.takeWhile Q := by
    rw [List.filter_cons_of_pos hPhead]
    congr 1
    conv_lhs => rw [← hsplit]
    rw [List.filter_append, h1, h2, List.append_nil]
  have hcount : (l.filter P).length = (((t0, d0) :: rest).filter P).length :=
    (hperm.filter P).length_eq.symm
  have : within_radius_score_count l t0 = (l.filter P).length := by
    rw [within_radius_score_count, hPdef]
  rw [this, hcount, hfilter, List.length_cons]
  omega

/-- C3 (amended): for every nonempty distance list with pairwise distinct
distances, `get_score` returns no score exactly when the closest stone's
distance exceeds the scoring radius; otherwise it returns the team owning
the single closest stone paired with the count of that team's stones
within the scoring radius (inclusively — the boundary case refutes the
claim's "strictly within", see the counterexample) that are closer than
every stone of the opposing team. -/
theorem get_score_closest_stone_spec (l : List (ℕ × ℚ)) (hne : l ≠ [])
    (hdist : l.Pairwise (fun p q => p.2 ≠ q.2)) :
    (get_score l = some (none, 0) ↔ ∀ p ∈ l, SCORE_DISTANCE < p.2) ∧
    (∀ T k, get_score l = some (some T, k) →
      ((∃ d, (T, d) ∈ l ∧ d ≤ SCORE_DISTANCE ∧ ∀ q ∈ l, q ≠ (T, d) → d < q.2) ∧
        k = within_radius_score_count l T)) := by
  have hperm := sortDistanceList_perm l
  have hsorted := sortDistanceList_sorted l
  have hdists : (sortDistanceList l).Pairwise (fun p q => p.2 ≠ q.2) :=
    (hperm.pairwise_iff fun h => h.symm).mpr hdist
  rcases hsl : sortDistanceList l with _ | ⟨⟨t0, d0⟩, rest⟩
  · rw [hsl] at hperm
    exact absurd hperm.symm.eq_nil hne
  · rw [hsl] at hperm hsorted hdists
    have hmem_iff : ∀ q, q ∈ ((t0, d0) :: rest) ↔ q ∈ l := fun q => hperm.mem_iff
    have hhead_le : ∀ q ∈ rest, d0 ≤ q.2 := by
      intro q hq
      exact (List.pairwise_cons.mp hsorted).1 q hq
    have hhead_ne : ∀ q ∈ rest, d0 ≠ q.2 := by
      intro q hq
      exact (List.pairwise_cons.mp hdists).1 q hq
    by_cases hd0 : SCORE_DISTANCE < d0
    · have hg : get_score l = some (none, 0) := by
        simp only [get_score, hsl, if_pos hd0]
      refine ⟨⟨fun _ => ?_, fun _ => hg⟩, fun T k hEq => ?_⟩
      · intro p hp
        rcases List.mem_cons.mp ((hmem_iff p).mpr hp) with h | h
        · exact h ▸ hd0
        · exact lt_of_lt_of_le hd0 (hhead_le p h)
      · rw [hg] at hEq
        simp at hEq
    · have hd0' : d0 ≤ SCORE_DISTANCE := le_of_not_lt hd0
      have hg : get_score l = some (some t0,
          1 + (rest.takeWhile
            (fun p => p.1 == t0 && decide (p.2 ≤ SCORE_DISTANCE))).length) := by
        simp only [get_score, hsl, if_neg hd0]
      have hheadl : (t0, d0) ∈ l := (hmem_iff _).mp (List.mem_cons_self _ _)
      have hclosest : ∀ q ∈ l, q ≠ (t0, d0) → d0 < q.2 := by
        intro q hq hqne
        rcases List.mem_cons.mp ((hmem_iff q).mpr hq) with h | h
        · exact absurd h hqne
        · exact lt_of_le_of_ne (hhead_le q h) (hhead_ne q h)
      refine ⟨⟨fun hEq => ?_, fun hall => ?_⟩, fun T k hEq => ?_⟩
      · rw [hg] at hEq
        simp at hEq
      · exact absurd (hall _ hheadl) hd0
      · rw [hg] at hEq
        simp only [Option.some.injEq, Prod.mk.injEq] at hEq
        obtain ⟨hT, hk⟩ := hEq
        have hT' : T = t0 := by
          cases hT
          rfl
        subst hT'
        constructor
        · exact ⟨d0, hheadl, hd0', fun q hq hqne => hclosest q hq hqne⟩
        · rw [← hk]
          rw [within_radius_count_eq_takeWhile l T d0 rest hperm hsorted hdists hd0']

lemma end_completion_winner_early (m : MatchParams) (ids : Option (List ℕ))
    (pre : PreState) (name : String) (w0 : Option ℕ) (dl : List (ℕ × ℚ))
    (ec : EndCompletion) (hok : end_completion m ids pre name w0 dl = .ok ec)
    (hend : ¬ ((m.standard_end_count : ℤ) - 1 ≤ (pre.end_number : ℤ))) :
    ec.winner_team_id = w0 := by
  have hlt : pre.end_number < m.standard_end_count := by
    by_contra hc
    push_neg at hc
    apply hend
    have : (m.standard_end_count : ℤ) ≤ (pre.end_number : ℤ) := by exact_mod_cast hc
    omega
  simp only [end_completion] at hok
  rcases hg : get_score dl with _ | ⟨st, sc⟩ <;> rw [hg] at hok
  · exact absurd hok (by simp)
  · simp only [if_pos hlt, if_neg hend] at hok
    split at hok <;> (split at hok <;> (injection hok with h; rw [← h]))

lemma update_remaining_time_fields (m : MatchParams) (pre : PreState) (name : String)
    (el : ℚ) (hname : name = "team0" ∨ name = "team1") :
    acting_remaining_post m pre name
        ⟨none, pre.end_number, 0, 0,
          (update_remaining_time m pre name el).team0_remaining_time,
          (update_remaining_time m pre name el).team1_remaining_time,
          (update_remaining_time m pre name el).team0_extra_end_remaining_time,
          (update_remaining_time m pre name el).team1_extra_end_remaining_time, none⟩ =
      (if acting_remaining_pre m pre name - el < 0 then 0
        else acting_remaining_pre m pre name - el) ∧
    (update_remaining_time m pre name el).winner_team_id =
      (if acting_remaining_pre m pre name - el < 0 then some (opponent_team m name)
        else none) := by
  rcases hname with h | h <;> subst h <;>
    by_cases hreg : pre.end_number < m.standard_end_count <;>
      simp only [update_remaining_time, acting_remaining_pre, acting_remaining_post,
        opponent_team, hreg, if_true, if_false, String.reduceEq, reduceIte] <;>
    (constructor <;> (split <;> rename_i hc <;> simp [hc]))

lemma receive_shot_info_ok_cases (m : MatchParams) (ids : Option (List ℕ)) (pre : PreState)
    (name : String) (el : ℚ) (dl : List (ℕ × ℚ)) (o : ShotOutcome)
    (hok : receive_shot_info m ids pre name el dl = .ok o) :
    ∃ shot_team t, pre.winner_team_id = none ∧
      pre.next_shot_team_id = some shot_team ∧ pre.total_shot_number = some t ∧
      (if shot_team = m.first_team_id then "team0" else "team1") = name ∧
      ((t + 1 ≠ total_shots_per_end m.game_mode ∧
        o = ⟨⟨(update_remaining_time m pre name el).winner_team_id, pre.end_number,
          (t + 1) / 2, t + 1,
          (update_remaining_time m pre name el).team0_remaining_time,
          (update_remaining_time m pre name el).team1_remaining_time,
          (update_remaining_time m pre name el).team0_extra_end_remaining_time,
          (update_remaining_time m pre name el).team1_extra_end_remaining_time,
          some (if shot_team = m.second_team_id then m.first_team_id
            else m.second_team_id)⟩, none, none, none⟩) ∨
      (t + 1 = total_shots_per_end m.game_mode ∧
        ∃ ec, end_completion m ids pre name
            (update_remaining_time m pre name el).winner_team_id dl = .ok ec ∧
          o.post = ⟨ec.winner_team_id, pre.end_number, (t + 1) / 2, t + 1,
            (update_remaining_time m pre name el).team0_remaining_time,
            (update_remaining_time m pre name el).team1_remaining_time,
            (update_remaining_time m pre name el).team0_extra_end_remaining_time,
            (update_remaining_time m pre name el).team1_extra_end_remaining_time, none⟩ ∧
          o.score_write = some (ec.team0_score, ec.team1_score) ∧
          (ec.winner_team_id = none →
            o.selector_write = (if m.game_mode = "mix_doubles" then
                match ec.next_end_selector_team_id with
                | some s => some (pre.end_number + 1, s)
                | none => none
              else none) ∧
            ∃ ns, state_end_number_update m.game_mode none pre.end_number
                ec.next_end_first_shot_team_id = .ok ns ∧ o.next_end_state = some ns) ∧
          (ec.winner_team_id ≠ none →
            o.selector_write = none ∧ o.next_end_state = none))) := by
  simp only [receive_shot_info] at hok
  by_cases hw : pre.winner_team_id.isSome
  · rw [if_pos hw] at hok
    exact absurd hok (by simp)
  rw [if_neg hw] at hok
  rcases hnext : pre.next_shot_team_id with _ | shot_team
  · rw [hnext] at hok
    simp only [] at hok
    exact absurd hok (by simp)
  · rcases htotal : pre.total_shot_number with _ | t
    · rw [hnext, htotal] at hok
      simp only [] at hok
      exact absurd hok (by simp)
    · rw [hnext, htotal] at hok
      simp only [] at hok
      by_cases hturn : (if shot_team = m.first_team_id then "team0" else "team1") ≠ name
      · rw [if_pos hturn] at hok
        exact absurd hok (by simp)
      rw [if_neg hturn] at hok
      have hname : (if shot_team = m.first_team_id then "team0" else "team1") = name :=
        not_ne_iff.mp hturn
      have hwnone : pre.winner_team_id = none := by
        simpa using hw
      by_cases hlast : t + 1 = total_shots_per_end m.game_mode
      · rw [if_pos hlast] at hok
        rcases hec : end_completion m ids pre name
            (update_remaining_time m pre name el).winner_team_id dl with e | ec
        · rw [hec] at hok
          simp only [] at hok
          exact absurd hok (by simp)
        · rw [hec] at hok
          simp only [] at hok
          by_cases hwn2 : ec.winner_team_id = none
          · rw [if_pos hwn2] at hok
            rcases hns : state_end_number_update m.game_mode ec.winner_team_id
                pre.end_number ec.next_end_first_shot_team_id with e | ns
            · rw [hns] at hok
              simp only [] at hok
              exact absurd hok (by simp)
            · rw [hns] at hok
              simp only [] at hok
              injection hok with ho
              rw [hwn2] at hns
              refine ⟨shot_team, t, hwnone, rfl, rfl, hname,
                Or.inr ⟨hlast, ec, rfl, by rw [← ho], by rw [← ho], ?_, ?_⟩⟩
              · intro _
                exact ⟨by rw [← ho], ns, hns, by rw [← ho]⟩
              · intro hne
                exact absurd hwn2 hne
          · rw [if_neg hwn2] at hok
            injection hok with ho
            exact ⟨shot_team, t, hwnone, rfl, rfl, hname,
              Or.inr ⟨hlast, ec, rfl, by rw [← ho], by rw [← ho],
                fun h => absurd h hwn2, fun _ => ⟨by rw [← ho], by rw [← ho]⟩⟩⟩
      · rw [if_neg hlast] at hok
        injection hok with ho
        exact ⟨shot_team, t, hwnone, rfl, rfl, hname, Or.inl ⟨hlast, ho.symm⟩⟩

/-- C2 (amended): on every accepted shot the acting team's budget —
regulation below `standard_end_count`, extra-end otherwise — becomes
`pre - elapsed` clamped at zero, so it never increases; and unless the
shot completes an end with `end_number ≥ standard_end_count - 1` (where
the final total-score comparison recomputes the winner, overriding the
timeout — see the counterexample), the opposing team is recorded as
winner exactly when the decrement would go negative. -/
theorem receive_shot_clock_spec (m : MatchParams) (ids : Option (List ℕ)) (pre : PreState)
    (name : String) (el : ℚ) (dl : List (ℕ × ℚ)) (o : ShotOutcome)
    (hok : receive_shot_info m ids pre name el dl = .ok o)
    (hname : name = "team0" ∨ name = "team1") (hel : 0 ≤ el) :
    acting_remaining_post m pre name o.post =
      (if acting_remaining_pre m pre name - el < 0 then 0
        else acting_remaining_pre m pre name - el) ∧
    (0 ≤ acting_remaining_pre m pre name →
      acting_remaining_post m pre name o.post ≤ acting_remaining_pre m pre name) ∧
    (acting_remaining_pre m pre name - el < 0 → ¬ is_final_score_comparison_shot m pre →
      o.post.winner_team_id = some (opponent_team m name)) ∧
    (0 ≤ acting_remaining_pre m pre name - el → ¬ is_final_score_comparison_shot m pre →
      o.post.winner_team_id = none) := by
  obtain ⟨shot_team, t, hw, hnext, htotal, hnm, hcase⟩ :=
    receive_shot_info_ok_cases m ids pre name el dl o hok
  have hclock := update_remaining_time_fields m pre name el hname
  have hwinner_eq : o.post.winner_team_id
        = (update_remaining_time m pre name el).winner_team_id ∨
      (t + 1 = total_shots_per_end m.game_mode ∧
        ∃ ec, end_completion m ids pre name
            (update_remaining_time m pre name el).winner_team_id dl = .ok ec ∧
          o.post.winner_team_id = ec.winner_team_id) := by
    rcases hcase with ⟨hne, ho⟩ | ⟨hlast, ec, hec, hpost, hrest⟩
    · rw [ho]
      exact Or.inl rfl
    · exact Or.inr ⟨hlast, ec, hec, by rw [hpost]⟩
  have htimes : acting_remaining_post m pre name o.post =
      (if acting_remaining_pre m pre name - el < 0 then 0
        else acting_remaining_pre m pre name - el) := by
    rcases hcase with ⟨hne, ho⟩ | ⟨hlast, ec, hec, hpost, hrest⟩
    · rw [ho]
      simp only [acting_remaining_post] at hclock ⊢
      exact hclock.1
    · rw [hpost]
      simp only [acting_remaining_post] at hclock ⊢
      exact hclock.1
  have hnotfinal_winner : ∀ hnf : ¬ is_final_score_comparison_shot m pre,
      o.post.winner_team_id = (update_remaining_time m pre name el).winner_team_id := by
    intro hnf
    rcases hwinner_eq with h | ⟨hlast, ec, hec, hw2⟩
    · exact h
    · have hA : pre.total_shot_number = some (total_shots_per_end m.game_mode - 1) := by
        rw [htotal]
        congr 1
        omega
      have hB : ¬ ((m.standard_end_count : ℤ) - 1 ≤ (pre.end_number : ℤ)) := by
        intro hB
        exact hnf ⟨hA, hB⟩
      rw [hw2, end_completion_winner_early m ids pre name _ dl ec hec hB]
  refine ⟨htimes, ?_, ?_, ?_⟩
  · intro hpre0
    rw [htimes]
    split <;> linarith
  · intro hneg hnf
    rw [hnotfinal_winner hnf, hclock.2, if_pos hneg]
  · intro hpos hnf
    rw [hnotfinal_winner hnf, hclock.2, if_neg (by linarith)]

set_option maxHeartbeats 1600000 in
lemma end_completion_selector (m : MatchParams) (ids : Option (List ℕ)) (pre : PreState)
    (name : String) (w0 : Option ℕ) (dl : List (ℕ × ℚ)) (ec : EndCompletion)
    (hok : end_completion m ids pre name w0 dl = .ok ec)
    (hmode : m.game_mode = "mix_doubles") :
    ∀ st sc, get_score dl = some (st, sc) →
      ec.next_end_selector_team_id =
        (if st = some 0 then some m.second_team_id
          else if st = some 1 then some m.first_team_id
          else some (if current_selector_for_end m ids pre.end_number = m.first_team_id
            then m.second_team_id else m.first_team_id)) := by
  intro st sc hg
  simp only [end_completion] at hok
  rw [hg] at hok
  simp only [] at hok
  repeat' split at hok
  all_goals injection hok with h
  all_goals rw [← h]
  all_goals simp_all

/-- C1 (amended): when a mixed-doubles end is completed by its final shot
and the match continues, the selector recorded for entry
`end_number + 1` of the end-setup selector log is the team that did NOT
score (the scoring team loses the choice — the claim's "scoring team
becomes selector" is refuted by the counterexample); on a blank end the
selector is the team that was not the current end's selector. The last
conjunct checks that writing entry `end_number + 1` of a gap-free log
stores exactly that selector. -/
theorem next_end_selector_spec (m : MatchParams) (ids : Option (List ℕ)) (pre : PreState)
    (name : String) (el : ℚ) (dl : List (ℕ × ℚ)) (o : ShotOutcome)
    (hok : receive_shot_info m ids pre name el dl = .ok o)
    (hmode : m.game_mode = "mix_doubles")
    (hlast : pre.total_shot_number = some (total_shots_per_end m.game_mode - 1))
    (hcont : o.post.winner_team_id = none) :
    (∀ k, get_score dl = some (some 0, k) →
      o.selector_write = some (pre.end_number + 1, m.second_team_id)) ∧
    (∀ k, get_score dl = some (some 1, k) →
      o.selector_write = some (pre.end_number + 1, m.first_team_id)) ∧
    (get_score dl = some (none, 0) →
      o.selector_write = some (pre.end_number + 1,
        if current_selector_for_end m ids pre.end_number = m.first_team_id
        then m.second_team_id else m.first_team_id)) ∧
    (∀ lst s, lst.length = pre.end_number + 1 →
      (set_end_setup_team_for_end_list lst (pre.end_number + 1) s).map
        (fun l2 => l2[pre.end_number + 1]?) = .ok (some s)) := by
  obtain ⟨shot_team, t, hw, hnext, htotal, hnm, hcase⟩ :=
    receive_shot_info_ok_cases m ids pre name el dl o hok
  have hshotspos : 1 ≤ total_shots_per_end m.game_mode := by
    unfold total_shots_per_end MIX_DOUBLES_TOTAL_SHOTS_PER_END STANDARD_TOTAL_SHOTS_PER_END
    split <;> omega
  have ht : t = total_shots_per_end m.game_mode - 1 := by
    rw [htotal] at hlast
    exact Option.some.inj hlast
  have hlog : ∀ (lst : List ℕ) (s : ℕ), lst.length = pre.end_number + 1 →
      (set_end_setup_team_for_end_list lst (pre.end_number + 1) s).map
        (fun l2 => l2[pre.end_number + 1]?) = .ok (some s) := by
    intro lst s hlen
    have hlne : ¬ lst = [] := by
      intro hE
      rw [hE] at hlen
      simp at hlen
    simp only [set_end_setup_team_for_end_list, if_neg hlne, hlen, lt_irrefl, if_false,
      if_pos rfl, reduceIte, Except.map]
    congr 1
    rw [List.getElem?_append_right (by omega)]
    simp [hlen]
  rcases hcase with ⟨hne, ho⟩ | ⟨hl2, ec, hec, hpost, hscore, hifnone, hifsome⟩
  · exact absurd (by omega : t + 1 = total_shots_per_end m.game_mode) hne
  · have hwn : ec.winner_team_id = none := by
      rw [hpost] at hcont
      simpa using hcont
    obtain ⟨hsel, ns, hns, hnes⟩ := hifnone hwn
    refine ⟨?_, ?_, ?_, hlog⟩
    · intro k hg
      have hs := end_completion_selector m ids pre name _ dl ec hec hmode (some 0) k hg
      rw [hsel, hmode, hs]
      simp
    · intro k hg
      have hs := end_completion_selector m ids pre name _ dl ec hec hmode (some 1) k hg
      rw [hsel, hmode, hs]
      simp
    · intro hg
      have hs := end_completion_selector m ids pre name _ dl ec hec hmode none 0 hg
      rw [hsel, hmode, hs]
      simp

lemma state_end_number_update_end_number (mode : String) (w : Option ℕ) (e : ℕ)
    (nxt : Option ℕ) (ns : NextEndState)
    (hok : state_end_number_update mode w e nxt = .ok ns) : ns.end_number = e + 1 := by
  simp only [state_end_number_update] at hok
  split at hok
  · injection hok with h
    rw [← h]
  · split at hok
    · exact absurd hok (by simp)
    · injection hok with h
      rw [← h]

/-- C10: every accepted shot increments `total_shot_number` by one and
stays in the same end; while the end is not complete the next state's
`next_shot_team_id` is the team that did not throw, and no next-end state
is created; on the shot that reaches `shotsPerEnd` the new state's
`next_shot_team_id` is null and any state created afterwards belongs to
end `end_number + 1`. -/
theorem shot_counter_alternation_spec (m : MatchParams) (ids : Option (List ℕ))
    (pre : PreState) (name : String) (el : ℚ) (dl : List (ℕ × ℚ)) (o : ShotOutcome)
    (t : ℕ) (shot_team : ℕ)
    (hok : receive_shot_info m ids pre name el dl = .ok o)
    (htotal : pre.total_shot_number = some t)
    (hshot : pre.next_shot_team_id = some shot_team)
    (hteams : shot_team = m.first_team_id ∨ shot_team = m.second_team_id)
    (hne : m.first_team_id ≠ m.second_team_id) :
    o.post.total_shot_number = t + 1 ∧
    o.post.end_number = pre.end_number ∧
    (t + 1 ≠ total_shots_per_end m.game_mode →
      o.post.next_shot_team_id = some (if shot_team = m.first_team_id
        then m.second_team_id else m.first_team_id) ∧
      o.next_end_state = none) ∧
    (t + 1 = total_shots_per_end m.game_mode →
      o.post.next_shot_team_id = none ∧
      ∀ ns, o.next_end_state = some ns → ns.end_number = pre.end_number + 1) := by
  obtain ⟨shot_team2, t2, hw, hnext2, htotal2, hnm, hcase⟩ :=
    receive_shot_info_ok_cases m ids pre name el dl o hok
  have ht2 : t2 = t := Option.some.inj (htotal2.symm.trans htotal)
  have hst2 : shot_team2 = shot_team := Option.some.inj (hnext2.symm.trans hshot)
  subst ht2
  subst hst2
  rcases hcase with ⟨hneq, ho⟩ | ⟨hlast, ec, hec, hpost, hscore, hifnone, hifsome⟩
  · rw [ho]
    refine ⟨rfl, rfl, fun _ => ⟨?_, rfl⟩, fun h => absurd h hneq⟩
    rcases hteams with h1 | h1 <;> subst h1 <;> simp [hne, Ne.symm hne]
  · refine ⟨by rw [hpost], by rw [hpost], fun h => absurd hlast h, fun _ => ⟨by rw [hpost], ?_⟩⟩
    intro ns hns2
    by_cases hwn : ec.winner_team_id = none
    · obtain ⟨_, ns2, hns2', hnes⟩ := hifnone hwn
      rw [hnes] at hns2
      have : ns2 = ns := Option.some.inj hns2
      subst this
      exact state_end_number_update_end_number m.game_mode none pre.end_number
        ec.next_end_first_shot_team_id ns2 hns2'
    · rw [(hifsome hwn).2] at hns2
      exact absurd hns2 (by simp)

lemma mem_drop_one_set0 {α : Type} (l : List α) (x c : α)
    (hc : c ∈ (l.set 0 x).drop 1) : c ∈ l.drop 1 := by
  cases l with
  | nil => simp at hc
  | cons a t => simpa using hc

lemma eq_of_mem_drop_replicate {α : Type} (n k : ℕ) (z c : α)
    (hc : c ∈ (List.replicate n z).drop k) : c = z :=
  List.eq_of_mem_replicate (List.mem_of_mem_drop hc)

/-- C8 (amended): the fresh-end (reset) layout has exactly
`stone_count_per_team game_mode` stones per team — 8 standard, 6 mixed
doubles — all at the origin; the mixed-doubles positioned-stone
(end-setup) layout always has 8 stones per team (kept for simulator
compatibility, refuting the claim's `stonesPerTeam(mode) = 6` for mixed
doubles — see the counterexample), with every slot beyond the two
positioned stones at the origin. -/
theorem stone_layout_sizes_spec (game_mode hammer_team_name : String)
    (power_play_side : Option String) (pattern : ℤ) (hammer_stone_position : String) :
    ((generate_reset_stone_coordinate_data game_mode).team0.length =
        stone_count_per_team game_mode ∧
      (generate_reset_stone_coordinate_data game_mode).team1.length =
        stone_count_per_team game_mode ∧
      (∀ c ∈ (generate_reset_stone_coordinate_data game_mode).team0, c = (0, 0)) ∧
      (∀ c ∈ (generate_reset_stone_coordinate_data game_mode).team1, c = (0, 0))) ∧
    (∀ d, generate_mixed_doubles_initial_stones hammer_team_name power_play_side pattern
        hammer_stone_position = .ok d →
      d.team0.length = 8 ∧ d.team1.length = 8 ∧
      (∀ c ∈ d.team0.drop 1, c = (0, 0)) ∧ (∀ c ∈ d.team1.drop 1, c = (0, 0))) := by
  constructor
  · refine ⟨by simp [generate_reset_stone_coordinate_data],
      by simp [generate_reset_stone_coordinate_data], ?_, ?_⟩ <;>
      (intro c hc;
       exact List.eq_of_mem_replicate (by simpa [generate_reset_stone_coordinate_data] using hc))
  · intro d hd
    simp only [generate_mixed_doubles_initial_stones, set_team_stone0] at hd
    split at hd
    · exact absurd hd (by simp)
    split at hd
    · exact absurd hd (by simp)
    split at hd <;>
      (injection hd with h; rw [← h]; split_ifs <;>
        (refine ⟨by simp, by simp, ?_, ?_⟩ <;>
          (intro c hc;
           simp only [] at hc;
           repeat replace hc := mem_drop_one_set0 _ _ _ hc;
           exact eq_of_mem_drop_replicate _ _ _ _ hc)))

set_option maxHeartbeats 1600000 in
/-- C9: in the end-setup transition logic (the body of
`perform_mix_doubles_end_setup` downstream of the settings-row read,
which in the shipped code crashes first — see C5), each team's
`power_play_end` field moves from null to a value at most once and is
never changed once set; a power-play request by a team whose power play
is already used fails with `ValueError("Power play already used.")`,
which the router maps to 409 Conflict; and a power-play request during an
extra end behaves exactly like a center-house request (no power play is
consumed). -/
theorem power_play_rules_spec (m : MatchParams) (row : MdSettingsRow) (latest : PreState)
    (name : String) (request : PositionedStonesModel) :
    (∀ row2 st, perform_mix_doubles_end_setup m row latest name request = .ok (row2, st) →
      (row.team0_power_play_end.isSome →
        row2.team0_power_play_end = row.team0_power_play_end) ∧
      (row.team1_power_play_end.isSome →
        row2.team1_power_play_end = row.team1_power_play_end)) ∧
    ((request = .pp_left ∨ request = .pp_right) →
      latest.end_number < m.standard_end_count →
      (if name = "team0" then row.team0_power_play_end
        else row.team1_power_play_end).isSome →
      row.end_setup_team_ids[latest.end_number]? =
        some (if name = "team0" then m.first_team_id else m.second_team_id) →
      perform_mix_doubles_end_setup m row latest name request =
        .error (.valueError ("Power play already used."))) ∧
    ((request = .pp_left ∨ request = .pp_right) →
      m.standard_end_count ≤ latest.end_number →
      perform_mix_doubles_end_setup m row latest name request =
        perform_mix_doubles_end_setup m row latest name .center_house) ∧
    end_setup_http_status (.valueError ("Power play already used.")) = 409 := by
  refine ⟨?_, ?_, ?_, by decide⟩
  · intro row2 st hok
    by_cases hnil : row.end_setup_team_ids = [] <;>
      simp only [perform_mix_doubles_end_setup, hnil, reduceIte] at hok <;>
      (repeat' split at hok) <;>
      try exact Except.noConfusion hok
    all_goals
      (injection hok with h
       rw [Prod.mk.injEq] at h
       obtain ⟨h1, h2⟩ := h
       rw [← h1]
       constructor <;> intro hset <;> simp_all)
  · intro hreq hreg hused hauth
    obtain ⟨hlen, hgetEq⟩ := List.getElem?_eq_some.mp hauth
    have hnonnil : ¬ row.end_setup_team_ids = [] := by
      intro hE
      rw [hE] at hlen
      simp at hlen
    have hextra_false : decide (m.standard_end_count ≤ latest.end_number) = false := by
      simp
      omega
    rcases hreq with rfl | rfl <;>
      (simp only [perform_mix_doubles_end_setup, if_neg hnonnil]
       rw [hauth]
       simp only []
       rw [if_neg (not_ne_iff.mpr rfl)]
       simp [hextra_false, hused])
  · intro hreq hextra
    have hex : decide (m.standard_end_count ≤ latest.end_number) = true :=
      decide_eq_true hextra
    rcases hreq with rfl | rfl <;>
      simp only [perform_mix_doubles_end_setup, hex, Option.isSome_some, Option.isSome_none,
        Bool.true_and, Bool.false_and, Bool.and_true, Bool.and_false, reduceIte] <;>
      rfl

/-- C5: every call of `perform_mix_doubles_end_setup` and of
`set_end_setup_team_for_end` fails at its first step with
`AttributeError` because `ReadData.read_mix_doubles_settings_row_for_update`
is not defined anywhere in the codebase, so no setup state is ever
created; moreover the `end_setup_team_ids` attribute the service reads and
writes is not a column of the `match_mix_doubles_settings` table. -/
theorem end_setup_db_always_fails :
    (∀ (m : MatchParams) (row : Option MdSettingsRow) (latest : PreState)
      (name : String) (request : PositionedStonesModel),
      perform_mix_doubles_end_setup_db m row latest name request =
        .error (.inl (.attributeError "ReadData"
          "read_mix_doubles_settings_row_for_update"))) ∧
    (∀ (row : Option MdSettingsRow) (end_number selector : ℕ),
      set_end_setup_team_for_end_db row end_number selector =
        .error (.inl (.attributeError "ReadData"
          "read_mix_doubles_settings_row_for_update"))) ∧
    read_data_methods.contains "read_mix_doubles_settings_row_for_update" = false ∧
    match_mix_doubles_settings_columns.contains "end_setup_team_ids" = false := by
  exact ⟨fun m row latest name request => rfl, fun row e s => rfl, by decide, by decide⟩

/-- C4: `StateSchema` declares `shot_number : int` and
`total_shot_number : int` as non-nullable, so the initial mixed-doubles
state that `start_match` constructs with both counters `None` is rejected
by pydantic validation (null shot counters are not representable), while
the standard-mode initial state (counters 0) passes. -/
theorem start_match_null_counters_rejected :
    start_match_initial_state_accepted "mix_doubles" = false ∧
    start_match_initial_state_accepted "standard" = true ∧
    start_match_initial_shot_number "mix_doubles" = none ∧
    start_match_initial_total_shot_number "mix_doubles" = none ∧
    pydantic_field_ok state_schema_shot_number_nullable none = false ∧
    pydantic_field_ok state_schema_total_shot_number_nullable none = false ∧
    pydantic_field_ok state_schema_next_shot_team_id_nullable none = true := by
  decide

/-- C6: the `ShotInfoSchema` constructor call in `receive_shot_info`
supplies `actual_translational_velocity` / `translational_velocity`, but
the schema declares the required fields `actual_translation_velocity` /
`translation_velocity`, so pydantic rejects every construction; the
construction precedes `update_score` and `record_shot_result` in the
handler, so no shot is ever persisted. -/
theorem shot_info_schema_construction_rejected :
    pydantic_init_accepted shot_info_schema_required_fields
      receive_shot_info_shot_kwargs = false ∧
    shot_info_schema_required_fields.contains "actual_translation_velocity" = true ∧
    receive_shot_info_shot_kwargs.contains "actual_translation_velocity" = false ∧
    shot_info_schema_required_fields.contains "translation_velocity" = true ∧
    receive_shot_info_shot_kwargs.contains "translation_velocity" = false ∧
    receive_shot_info_shot_kwargs.contains "actual_translational_velocity" = true ∧
    receive_shot_info_shot_kwargs.contains "translational_velocity" = true ∧
    receive_shot_info_effect_order.indexOf "construct_shot_info_schema" <
      receive_shot_info_effect_order.indexOf "update_score" ∧
    receive_shot_info_effect_order.indexOf "construct_shot_info_schema" <
      receive_shot_info_effect_order.indexOf "record_shot_result" := by
  decide

/-- C7: the `match_db` service wrappers pass five positional arguments
(inserting `team_id`) to `UpdateData.update_first_team` /
`update_second_team`, which declare four parameters, so every explicit
roster configuration raises `TypeError`; and even the CRUD bodies never
assign `first_team_id` / `second_team_id`, so the resolved team id is
never written to the match row. -/
theorem configure_team_arity_mismatch :
    python_positional_call_ok crud_update_first_team_params.length
      service_update_first_team_args.length = false ∧
    python_positional_call_ok crud_update_second_team_params.length
      service_update_second_team_args.length = false ∧
    crud_update_first_team_params.length = 4 ∧
    service_update_first_team_args.length = 5 ∧
    crud_update_second_team_params.length = 4 ∧
    service_update_second_team_args.length = 5 ∧
    crud_update_first_team_assigned_columns.contains "first_team_id" = false ∧
    crud_update_second_team_assigned_columns.contains "second_team_id" = false := by
  decide

/-- C3 counterexample: with team 0's single stone exactly at
`SCORE_DISTANCE` and team 1's stone farther out, the code scores one
point for team 0, while the claim's count of team-0 stones *strictly*
within the scoring radius (and closer than the opponent) is zero, and the
closest distance does not exceed the radius — so the claim as stated is
false at this input. -/
theorem get_score_strict_radius_counterexample :
    get_score [(0, SCORE_DISTANCE), (1, SCORE_DISTANCE + 1)] = some (some 0, 1) ∧
    claimed_strict_score_count [(0, SCORE_DISTANCE), (1, SCORE_DISTANCE + 1)] 0 = 0 ∧
    ¬ SCORE_DISTANCE < SCORE_DISTANCE ∧ (1 : ℕ) ≠ 0 := by
  refine ⟨?_, ?_, lt_irrefl _, by decide⟩
  · norm_num [get_score, sortDistanceList, List.insertionSort, List.orderedInsert, distLE,
      SCORE_DISTANCE, HOUSE_RADIUS, STONE_RADIUS, List.takeWhile]
  · norm_num [claimed_strict_score_count, SCORE_DISTANCE, HOUSE_RADIUS, STONE_RADIUS,
      List.filter]

/-- C3 witness: the amended specification applied to the concrete
distance list `[(0, 1), (1, 3)]`: team 0 scores exactly its one stone
within the radius that beats team 1's closest stone. -/
theorem get_score_closest_stone_spec_witness :
    get_score [(0, 1), (1, 3)] = some (some 0, 1) ∧
    within_radius_score_count [(0, 1), (1, 3)] 0 = 1 := by
  have hg : get_score [(0, 1), (1, 3)] = some (some 0, 1) := by
    norm_num [get_score, sortDistanceList, List.insertionSort, List.orderedInsert, distLE,
      SCORE_DISTANCE, HOUSE_RADIUS, STONE_RADIUS, List.takeWhile]
  have h := get_score_closest_stone_spec [(0, 1), (1, 3)] (by decide) (by decide)
  exact ⟨hg, ((h.2 0 1 hg).2).symm⟩

/-- C2 counterexample: on the final shot of a one-end standard match,
team 0's clock runs out (5 seconds left, 10 elapsed) so the claim demands
team 1 (id 20) be recorded as winner; but team 0 wins the end on score
and the final total-score comparison records team 0 (id 10) as winner,
overriding the timeout. -/
theorem clock_timeout_override_counterexample :
    (receive_shot_info clockcex_match none clockcex_pre "team0" 10 clockcex_dl).map
        (fun o => o.post.winner_team_id) = .ok (some 10) ∧
    acting_remaining_pre clockcex_match clockcex_pre "team0" - 10 < 0 ∧
    opponent_team clockcex_match "team0" = 20 ∧ (10 : ℕ) ≠ 20 := by
  refine ⟨?_, by norm_num [acting_remaining_pre, clockcex_match, clockcex_pre], by rfl,
    by decide⟩
  norm_num [Except.map, receive_shot_info, update_remaining_time, end_completion,
    current_selector_for_end, get_score, sortDistanceList, List.insertionSort,
    List.orderedInsert, distLE, SCORE_DISTANCE, HOUSE_RADIUS, STONE_RADIUS,
    state_end_number_update, total_shots_per_end, MIX_DOUBLES_TOTAL_SHOTS_PER_END,
    STANDARD_TOTAL_SHOTS_PER_END, calculate_score, List.takeWhile, clockcex_match,
    clockcex_pre, clockcex_dl] <;> rfl

/-- C2 witness: the amended clock rule applied to a concrete mid-end shot
on which team 0's clock goes negative: the budget clamps per the rule and
team 1 (the opponent) is recorded as winner. -/
theorem receive_shot_clock_spec_witness :
    acting_remaining_post clockw_match clockw_pre "team0" clockw_outcome.post =
      (if acting_remaining_pre clockw_match clockw_pre "team0" - 10 < 0 then 0
        else acting_remaining_pre clockw_match clockw_pre "team0" - 10) ∧
    clockw_outcome.post.winner_team_id = some (opponent_team clockw_match "team0") := by
  have hok : receive_shot_info clockw_match none clockw_pre "team0" 10 [] =
      .ok clockw_outcome := by
    norm_num [receive_shot_info, update_remaining_time, end_completion,
      current_selector_for_end, get_score, sortDistanceList, List.insertionSort,
      List.orderedInsert, distLE, SCORE_DISTANCE, HOUSE_RADIUS, STONE_RADIUS,
      state_end_number_update, total_shots_per_end, MIX_DOUBLES_TOTAL_SHOTS_PER_END,
      STANDARD_TOTAL_SHOTS_PER_END, calculate_score, List.takeWhile, clockw_match,
      clockw_pre, clockw_outcome] <;> exact fun h => absurd h (by decide)
  have h := receive_shot_clock_spec clockw_match none clockw_pre "team0" 10 [] clockw_outcome
    hok (Or.inl rfl) (by norm_num)
  refine ⟨h.1, h.2.2.1 ?_ ?_⟩
  · norm_num [acting_remaining_pre, clockw_match, clockw_pre]
  · decide

/-- C1 counterexample: team 0 (id 10) scores the mixed-doubles end, yet
the selector recorded for the next end (entry 1 of the log) is team 1
(id 20), not the scoring team — the claim's "scoring team becomes
selector" is false at this input. -/
theorem next_end_selector_claim_counterexample :
    (receive_shot_info md_match (some [20]) md_pre "team0" 0 md_dl).map
        (fun o => o.selector_write) = .ok (some (1, 20)) ∧
    get_score md_dl = some (some 0, 1) ∧
    md_match.first_team_id = 10 ∧ md_match.second_team_id = 20 ∧ (20 : ℕ) ≠ 10 := by
  refine ⟨?_, ?_, rfl, rfl, by decide⟩ <;>
    norm_num [Except.map, receive_shot_info, update_remaining_time, end_completion,
      current_selector_for_end, get_score, sortDistanceList, List.insertionSort,
      List.orderedInsert, distLE, SCORE_DISTANCE, HOUSE_RADIUS, STONE_RADIUS,
      state_end_number_update, total_shots_per_end, MIX_DOUBLES_TOTAL_SHOTS_PER_END,
      STANDARD_TOTAL_SHOTS_PER_END, calculate_score, List.takeWhile, md_match, md_pre, md_dl]

/-- C1 witness: the amended selector rule applied to the concrete run of
`md_match`: team 0 scores, and the recorded selector for end 1 is the
non-scoring team (id 20). -/
theorem next_end_selector_spec_witness :
    md_outcome.selector_write = some (1, 20) ∧ get_score md_dl = some (some 0, 1) := by
  have hg : get_score md_dl = some (some 0, 1) := by
    norm_num [get_score, sortDistanceList, List.insertionSort, List.orderedInsert, distLE,
      SCORE_DISTANCE, HOUSE_RADIUS, STONE_RADIUS, List.takeWhile, md_dl]
  have hok : receive_shot_info md_match (some [20]) md_pre "team0" 0 md_dl =
      .ok md_outcome := by
    norm_num [receive_shot_info, update_remaining_time, end_completion,
      current_selector_for_end, get_score, sortDistanceList, List.insertionSort,
      List.orderedInsert, distLE, SCORE_DISTANCE, HOUSE_RADIUS, STONE_RADIUS,
      state_end_number_update, total_shots_per_end, MIX_DOUBLES_TOTAL_SHOTS_PER_END,
      STANDARD_TOTAL_SHOTS_PER_END, calculate_score, List.takeWhile, md_match, md_pre,
      md_dl, md_outcome]
  have h := next_end_selector_spec md_match (some [20]) md_pre "team0" 0 md_dl md_outcome
    hok rfl (by rfl) (by rfl)
  exact ⟨(h.1) 1 hg, hg⟩

/-- C10 witness: the turn-alternation rule applied to a concrete mid-end
shot: team 0 (id 10) throws the 4th of 16 shots, the counter increments
to 4, team 1 (id 20) is to throw next, and no next-end state is
created. -/
theorem shot_counter_alternation_spec_witness :
    altw_outcome.post.total_shot_number = 3 + 1 ∧
    altw_outcome.post.next_shot_team_id = some 20 ∧
    altw_outcome.next_end_state = none := by
  have hok : receive_shot_info altw_match none altw_pre "team0" 0 [] =
      .ok altw_outcome := by
    norm_num [receive_shot_info, update_remaining_time, total_shots_per_end,
      STANDARD_TOTAL_SHOTS_PER_END, altw_match, altw_pre, altw_outcome] <;>
      exact fun h => absurd h (by decide)
  have h := shot_counter_alternation_spec altw_match none altw_pre "team0" 0 [] altw_outcome
    3 10 hok (by rfl) (by rfl) (Or.inl (by rfl)) (by decide)
  refine ⟨h.1, ?_, (h.2.2.1 (by decide)).2⟩
  have h3 := (h.2.2.1 (by decide)).1
  simpa [altw_match] using h3

/-- C8 counterexample: the mixed-doubles positioned-stone layout has 8
stones per team while `stone_count_per_team "mix_doubles"` is 6 — the
claim's "stonesPerTeam(mode) stones per team" is false for the end-setup
layout. -/
theorem md_initial_stones_count_counterexample :
    (generate_mixed_doubles_initial_stones "team1" none 0 "house").map
        (fun d => (d.team0.length, d.team1.length)) = .ok (8, 8) ∧
    stone_count_per_team "mix_doubles" = 6 ∧ (8 : ℕ) ≠ 6 := by
  exact ⟨by rfl, by decide, by decide⟩

/-- C8 witness: the amended layout sizes at concrete inputs: the
mixed-doubles reset layout has 6 stones per team and the end-setup layout
has 8 per team. -/
theorem stone_layout_sizes_spec_witness :
    (generate_reset_stone_coordinate_data "mix_doubles").team0.length =
      stone_count_per_team "mix_doubles" ∧
    c8_layout.team0.length = 8 ∧ c8_layout.team1.length = 8 := by
  have h := stone_layout_sizes_spec "mix_doubles" "team1" none 0 "house"
  have hok : generate_mixed_doubles_initial_stones "team1" none 0 "house" =
      .ok c8_layout := by rfl
  obtain ⟨l0, l1, -, -⟩ := h.2 c8_layout hok
  exact ⟨h.1.1, l0, l1⟩

/-- C9 witness: a concrete reuse attempt (team 0's power play already
consumed in end 0) is rejected with the `ValueError` the router maps to
Conflict, and a concrete extra-end power-play request behaves exactly as
a center-house request. -/
theorem power_play_rules_spec_witness :
    perform_mix_doubles_end_setup ppw_match ppw_row ppw_latest_reg "team0" .pp_left =
      .error (.valueError ("Power play already used.")) ∧
    perform_mix_doubles_end_setup ppw_match ppw_row ppw_latest_extra "team0" .pp_left =
      perform_mix_doubles_end_setup ppw_match ppw_row ppw_latest_extra "team0"
        .center_house := by
  refine ⟨(power_play_rules_spec ppw_match ppw_row ppw_latest_reg "team0" .pp_left).2.1
      (Or.inl rfl) (by decide) (by decide) (by decide),
    (power_play_rules_spec ppw_match ppw_row ppw_latest_extra "team0" .pp_left).2.2.1
      (Or.inl rfl) (by decide)⟩
